import Mathlib

/-!
Verification of the GarageDoorControl firmware core against its design
specification.

Shallow embedding of the C++ sources:
* `DoorState.cpp` / `DoorState.h` — door position model (`DoorStatusCalc`),
  manual-switch policy (`DoorState::SwitchPressed`), relay request handling
  (`DoorState::DoRequest`, `DoorState::ResetTimer`,
  `DoorState::TurnOffControlPins`).
* `InputPin.cpp` / `InputPin.h` — debounced edge detector (`InputPin::ProcessISR`).
* `FixedIPList.cpp` — bounded de-duplicating peer registry (`FixedIPList::Add`).
* `WiFiService.cpp` — UDP protocol decode (`UDPWiFiService::ProcessUDPMessage`).

Machine integers: the firmware's `uint32_t` millisecond clock wraps, and the
code relies on modular subtraction `ulNow - m_LastChangedTime`; times are
embedded as `Nat` reduced modulo `2^32` with an explicit wrapping subtraction.
Statistics counters are embedded as `Nat` event counts (the properties under
study are about how many events of each class occurred).  Effects (which relay
is switched on, which callback hook fires) are returned as explicit data.
-/

/-! ## Door position model (`DoorState.h`, `DoorState.cpp`) -/

/-- Door states, from `enum State` in `DoorState.h`:
`Open, Opening, Closed, Closing, Stopped, Unknown, Bad`. -/
inductive DoorState.State : Type
  | Open
  | Opening
  | Closed
  | Closing
  | Stopped
  | Unknown
  | Bad
deriving DecidableEq, Repr

/-- Travel directions, from `enum Direction` in `DoorState.h`: `Up, Down, None`. -/
inductive DoorState.Direction : Type
  | Up
  | Down
  | None
deriving DecidableEq, Repr

/-- Requests, from `enum Request` in `DoorState.h`:
`LightOn, LightOff, OpenDoor, CloseDoor, StopDoor`. -/
inductive DoorState.Request : Type
  | LightOn
  | LightOff
  | OpenDoor
  | CloseDoor
  | StopDoor
deriving DecidableEq, Repr

/-- Embedding of `DoorStatusCalc::UpdateStatus` (`DoorState.cpp:559-610`).
The C++ method reads `bIsClosed`/`bIsOpen` from the two sensor pins'
`GetCurrentMatchedState()` and mutates `m_currentState`/`m_LastDirection`;
here the readings are arguments and the (state, direction) pair is passed
and returned explicitly. -/
def DoorStatusCalc.UpdateStatus (bIsOpen bIsClosed : Bool) (prior : DoorState.State × DoorState.Direction) : DoorState.State × DoorState.Direction :=
  if bIsClosed = false ∧ bIsOpen = false then
    match prior.1 with
    | DoorState.State.Open => (DoorState.State.Closing, DoorState.Direction.Down)
    | DoorState.State.Closed => (DoorState.State.Opening, DoorState.Direction.Up)
    | DoorState.State.Bad => (DoorState.State.Unknown, DoorState.Direction.None)
    | DoorState.State.Stopped => prior
    | _ => prior
  else if bIsClosed = false ∧ bIsOpen = true then
    (DoorState.State.Open, DoorState.Direction.None)
  else if bIsClosed = true ∧ bIsOpen = false then
    (DoorState.State.Closed, DoorState.Direction.None)
  else
    (DoorState.State.Bad, DoorState.Direction.None)

/-- Embedding of the `DoorStatusCalc` constructor (`DoorState.cpp:548-553`):
it seeds `(Unknown, None)` via `SetDoorState`/`SetDoorDirection` and then runs
`UpdateStatus()` once on the two sensor readings. -/
def DoorStatusCalc.initialStatus (bIsOpen bIsClosed : Bool) : DoorState.State × DoorState.Direction :=
  DoorStatusCalc.UpdateStatus bIsOpen bIsClosed (DoorState.State.Unknown, DoorState.Direction.None)

/-- C1: for every prior (state, direction) pair, `UpdateStatus` realises the
spec's table: both sensors matched gives `Bad`/`None` regardless of prior
state; only the open sensor matched gives `Open`/`None`; only the closed
sensor matched gives `Closed`/`None`; and with neither matched the prior state
`Open` goes to `Closing`/`Down`, `Closed` goes to `Opening`/`Up`, `Bad` goes
to `Unknown`/`None`, while `Stopped`, `Opening`, `Closing` and `Unknown` leave
state and direction unchanged. -/
theorem DoorStatusCalc.UpdateStatus_table (prior : DoorState.State × DoorState.Direction) :
    DoorStatusCalc.UpdateStatus true true prior = (DoorState.State.Bad, DoorState.Direction.None)
  ∧ DoorStatusCalc.UpdateStatus true false prior = (DoorState.State.Open, DoorState.Direction.None)
  ∧ DoorStatusCalc.UpdateStatus false true prior = (DoorState.State.Closed, DoorState.Direction.None)
  ∧ DoorStatusCalc.UpdateStatus false false (DoorState.State.Open, prior.2) = (DoorState.State.Closing, DoorState.Direction.Down)
  ∧ DoorStatusCalc.UpdateStatus false false (DoorState.State.Closed, prior.2) = (DoorState.State.Opening, DoorState.Direction.Up)
  ∧ DoorStatusCalc.UpdateStatus false false (DoorState.State.Bad, prior.2) = (DoorState.State.Unknown, DoorState.Direction.None)
  ∧ DoorStatusCalc.UpdateStatus false false (DoorState.State.Stopped, prior.2) = (DoorState.State.Stopped, prior.2)
  ∧ DoorStatusCalc.UpdateStatus false false (DoorState.State.Opening, prior.2) = (DoorState.State.Opening, prior.2)
  ∧ DoorStatusCalc.UpdateStatus false false (DoorState.State.Closing, prior.2) = (DoorState.State.Closing, prior.2)
  ∧ DoorStatusCalc.UpdateStatus false false (DoorState.State.Unknown, prior.2) = (DoorState.State.Unknown, prior.2) := by
  obtain ⟨s, d⟩ := prior
  cases s <;> cases d <;> exact ⟨rfl, rfl, rfl, rfl, rfl, rfl, rfl, rfl, rfl, rfl⟩

/-- C2 counterexample: the claim says that with both boundary sensors
unmatched (or both matched) the startup state is `Stopped`.  In the code the
`DoorStatusCalc` constructor seeds `Unknown` and `UpdateStatus` leaves
`Unknown` unchanged when both sensors are unmatched, so the initial state with
both sensors unmatched is `Unknown`, not `Stopped` (and with both matched it
is `Bad`, not `Stopped`). -/
theorem DoorStatusCalc.initialStatus_not_Stopped :
    (DoorStatusCalc.initialStatus false false).1 = DoorState.State.Unknown
  ∧ (DoorStatusCalc.initialStatus false false).1 ≠ DoorState.State.Stopped
  ∧ (DoorStatusCalc.initialStatus true true).1 = DoorState.State.Bad
  ∧ (DoorStatusCalc.initialStatus true true).1 ≠ DoorState.State.Stopped := by
  exact ⟨rfl, by decide, rfl, by decide⟩

/-- C2 amended: at startup the initial status is computed once, before any
control loop runs, by seeding `(Unknown, None)` and applying the
position-model update to the two sensor readings: exactly one sensor matched
gives the corresponding terminal state (`Open` for the open sensor, `Closed`
for the closed sensor) with direction `None`; both matched gives `Bad`/`None`;
both unmatched leaves `Unknown`/`None`. -/
theorem DoorStatusCalc.initialStatus_table :
    DoorStatusCalc.initialStatus true false = (DoorState.State.Open, DoorState.Direction.None)
  ∧ DoorStatusCalc.initialStatus false true = (DoorState.State.Closed, DoorState.Direction.None)
  ∧ DoorStatusCalc.initialStatus true true = (DoorState.State.Bad, DoorState.Direction.None)
  ∧ DoorStatusCalc.initialStatus false false = (DoorState.State.Unknown, DoorState.Direction.None) := by
  exact ⟨rfl, rfl, rfl, rfl⟩

/-! ## Relay control lines (`DoorState.cpp`) -/

/-- Logical state of the four relay control lines (`OutputPin` objects
`m_pDoorOpenCtrlPin`, `m_pDoorCloseCtrlPin`, `m_pDoorStopCtrlPin`,
`m_pDoorLightCtrlPin`; `true` = relay asserted) together with whether a
pulse-release timer callback is currently registered with `TheTimer`. -/
structure ControlPins : Type where
  doorOpenCtrl : Bool
  doorCloseCtrl : Bool
  doorStopCtrl : Bool
  doorLightCtrl : Bool
  timerCallbackArmed : Bool
deriving DecidableEq, Repr

/-- Identifies one of the four relay control lines. -/
inductive Relay : Type
  | openCtrl
  | closeCtrl
  | stopCtrl
  | lightCtrl
deriving DecidableEq, Repr

/-- Reads one relay line of a `ControlPins` state. -/
def ControlPins.get (p : ControlPins) : Relay → Bool
  | Relay.openCtrl => p.doorOpenCtrl
  | Relay.closeCtrl => p.doorCloseCtrl
  | Relay.stopCtrl => p.doorStopCtrl
  | Relay.lightCtrl => p.doorLightCtrl

/-- Number of relay lines currently asserted. -/
def ControlPins.onCount (p : ControlPins) : Nat :=
  (if p.doorOpenCtrl then 1 else 0) + (if p.doorCloseCtrl then 1 else 0)
    + (if p.doorStopCtrl then 1 else 0) + (if p.doorLightCtrl then 1 else 0)

/-- Embedding of an `OutputPin::On()` call on the given relay line. -/
def setRelayOn (r : Relay) (p : ControlPins) : ControlPins :=
  match r with
  | Relay.openCtrl => { p with doorOpenCtrl := true }
  | Relay.closeCtrl => { p with doorCloseCtrl := true }
  | Relay.stopCtrl => { p with doorStopCtrl := true }
  | Relay.lightCtrl => { p with doorLightCtrl := true }

/-- Embedding of `DoorState::TurnOffControlPins` (`DoorState.cpp:494-501`):
removes the pending timer callback and switches all four relay lines off. -/
def DoorState.TurnOffControlPins (_p : ControlPins) : ControlPins :=
  ⟨false, false, false, false, false⟩

/-- Embedding of `DoorState::ResetTimer` (`DoorState.cpp:241-248`): runs
`TurnOffControlPins` and then registers the `TurnOffControlPins` pulse-release
callback with `TheTimer` (registration failure is only logged; the successful
path is modelled). -/
def DoorState.ResetTimer (p : ControlPins) : ControlPins :=
  { DoorState.TurnOffControlPins p with timerCallbackArmed := true }

/-- Relay line pulsed by each request in `DoorState::DoRequest`
(`DoorState.cpp:263-297`): both light requests pulse the light relay. -/
def DoorState.requestRelay : DoorState.Request → Relay
  | DoorState.Request.LightOn => Relay.lightCtrl
  | DoorState.Request.LightOff => Relay.lightCtrl
  | DoorState.Request.CloseDoor => Relay.closeCtrl
  | DoorState.Request.OpenDoor => Relay.openCtrl
  | DoorState.Request.StopDoor => Relay.stopCtrl

/-- Embedding of `DoorState::DoRequest` (`DoorState.cpp:263-297`): every case
runs the `handleRequest` lambda, i.e. `ResetTimer()` followed by `pin->On()`
on the request's relay line. -/
def DoorState.DoRequest (eRequest : DoorState.Request) (p : ControlPins) : ControlPins :=
  setRelayOn (DoorState.requestRelay eRequest) (DoorState.ResetTimer p)

/-- Effect of one `DoorState::SwitchPressed` invocation: the resulting relay
lines, door state and direction. -/
structure SwitchEffect : Type where
  pins : ControlPins
  doorState : DoorState.State
  direction : DoorState.Direction
deriving DecidableEq, Repr

/-- Embedding of `DoorState::SwitchPressed` (`DoorState.cpp:168-225`).  The
C++ switches on `GetDoorState()`; asserting a relay is always `ResetTimer()`
followed by `On()`; the `Stopped` case dispatches on `GetDoorDirection()`; the
`Bad`/`Unknown` cases and the `Stopped`/unknown-direction case only log. -/
def DoorState.SwitchPressed (st : DoorState.State) (dir : DoorState.Direction) (p : ControlPins) : SwitchEffect :=
  match st with
  | DoorState.State.Closed =>
      ⟨setRelayOn Relay.openCtrl (DoorState.ResetTimer p), st, dir⟩
  | DoorState.State.Open =>
      ⟨setRelayOn Relay.closeCtrl (DoorState.ResetTimer p), st, dir⟩
  | DoorState.State.Opening =>
      ⟨setRelayOn Relay.stopCtrl (DoorState.ResetTimer p), DoorState.State.Stopped, dir⟩
  | DoorState.State.Closing =>
      ⟨setRelayOn Relay.stopCtrl (DoorState.ResetTimer p), DoorState.State.Stopped, dir⟩
  | DoorState.State.Stopped =>
      match dir with
      | DoorState.Direction.Down =>
          ⟨setRelayOn Relay.openCtrl (DoorState.ResetTimer p), st, dir⟩
      | DoorState.Direction.Up =>
          ⟨setRelayOn Relay.closeCtrl (DoorState.ResetTimer p), st, dir⟩
      | DoorState.Direction.None => ⟨p, st, dir⟩
  | DoorState.State.Bad => ⟨p, st, dir⟩
  | DoorState.State.Unknown => ⟨p, st, dir⟩

/-- C3: a switch press applies exactly the decision table of the spec:
`Closed` asserts the open relay; `Open` asserts the close relay; `Opening` and
`Closing` assert the stop relay and force the position-model state to
`Stopped` without changing the recorded direction; `Stopped` reverses using
the last direction (`Down` asserts open, `Up` asserts close, `None` asserts
nothing); `Bad` and `Unknown` assert nothing and change nothing. -/
theorem DoorState.SwitchPressed_table (dir : DoorState.Direction) (p : ControlPins) :
    DoorState.SwitchPressed DoorState.State.Closed dir p
      = ⟨setRelayOn Relay.openCtrl (DoorState.ResetTimer p), DoorState.State.Closed, dir⟩
  ∧ DoorState.SwitchPressed DoorState.State.Open dir p
      = ⟨setRelayOn Relay.closeCtrl (DoorState.ResetTimer p), DoorState.State.Open, dir⟩
  ∧ DoorState.SwitchPressed DoorState.State.Opening dir p
      = ⟨setRelayOn Relay.stopCtrl (DoorState.ResetTimer p), DoorState.State.Stopped, dir⟩
  ∧ DoorState.SwitchPressed DoorState.State.Closing dir p
      = ⟨setRelayOn Relay.stopCtrl (DoorState.ResetTimer p), DoorState.State.Stopped, dir⟩
  ∧ DoorState.SwitchPressed DoorState.State.Stopped DoorState.Direction.Down p
      = ⟨setRelayOn Relay.openCtrl (DoorState.ResetTimer p), DoorState.State.Stopped, DoorState.Direction.Down⟩
  ∧ DoorState.SwitchPressed DoorState.State.Stopped DoorState.Direction.Up p
      = ⟨setRelayOn Relay.closeCtrl (DoorState.ResetTimer p), DoorState.State.Stopped, DoorState.Direction.Up⟩
  ∧ DoorState.SwitchPressed DoorState.State.Stopped DoorState.Direction.None p
      = ⟨p, DoorState.State.Stopped, DoorState.Direction.None⟩
  ∧ DoorState.SwitchPressed DoorState.State.Bad dir p = ⟨p, DoorState.State.Bad, dir⟩
  ∧ DoorState.SwitchPressed DoorState.State.Unknown dir p = ⟨p, DoorState.State.Unknown, dir⟩ := by
  cases dir <;> exact ⟨rfl, rfl, rfl, rfl, rfl, rfl, rfl, rfl, rfl⟩

/-- Every processed request leaves exactly one relay asserted, namely the
request's own relay. -/
theorem DoorState.DoRequest_onCount (eRequest : DoorState.Request) (p : ControlPins) :
    (DoorState.DoRequest eRequest p).onCount = 1
  ∧ (DoorState.DoRequest eRequest p).get (DoorState.requestRelay eRequest) = true := by
  cases eRequest <;>
    simp [DoorState.DoRequest, DoorState.requestRelay, DoorState.ResetTimer,
      DoorState.TurnOffControlPins, setRelayOn, ControlPins.onCount, ControlPins.get]

/-- C4: processing any request first cancels the pending pulse-release
callback and deasserts all four relay lines (`TurnOffControlPins`, run inside
`ResetTimer` before the new relay is asserted), then asserts exactly the relay
of that request; hence after any nonempty sequence of requests exactly one
relay is asserted. -/
theorem DoorState.DoRequest_single_relay (eRequest : DoorState.Request) (p : ControlPins) (prior : List DoorState.Request) :
    DoorState.TurnOffControlPins p = ⟨false, false, false, false, false⟩
  ∧ (DoorState.ResetTimer p).doorOpenCtrl = false
  ∧ (DoorState.ResetTimer p).doorCloseCtrl = false
  ∧ (DoorState.ResetTimer p).doorStopCtrl = false
  ∧ (DoorState.ResetTimer p).doorLightCtrl = false
  ∧ DoorState.DoRequest eRequest p = setRelayOn (DoorState.requestRelay eRequest) (DoorState.ResetTimer p)
  ∧ (DoorState.DoRequest eRequest p).onCount = 1
  ∧ (DoorState.DoRequest eRequest p).get (DoorState.requestRelay eRequest) = true
  ∧ ((prior ++ [eRequest]).foldl (fun q r => DoorState.DoRequest r q) p).onCount = 1 := by
  refine ⟨rfl, rfl, rfl, rfl, rfl, rfl, (DoorState.DoRequest_onCount eRequest p).1,
    (DoorState.DoRequest_onCount eRequest p).2, ?_⟩
  rw [List.foldl_append]
  exact (DoorState.DoRequest_onCount eRequest _).1

/-! ## Debounced edge detector (`InputPin.h`, `InputPin.cpp`) -/

/-- Wrapping `uint32_t` subtraction `a - b` for operands reduced mod `2^32`,
as performed on `ulNow - m_LastChangedTime`. -/
def u32sub (a b : Nat) : Nat :=
  (a % 4294967296 + 4294967296 - b % 4294967296) % 4294967296

/-- Mutable state of an `InputPin` (`InputPin.h:34-44`).  Raw pin readings are
embedded as `Bool`: a reading is `true` when `digitalRead` equals the
configured `m_MatchStatus`.  Counters are event counts. -/
structure PinState : Type where
  lastPinRead : Bool
  lastChangedTime : Nat
  currentMatchedState : Bool
  isrCalledCount : Nat
  discardedUnchangedCount : Nat
  matchedCount : Nat
  unmatchedCount : Nat
  spuriousCount : Nat
  matchedDuration : Nat
deriving DecidableEq, Repr

/-- How one `ProcessISR` invocation classified the transition.  `matchedC`
fires the `MatchAction()` hook and `unmatchedC` fires the `UnmatchAction()`
hook; the other classes fire no hook. -/
inductive Classified : Type
  | discardedC
  | matchedC
  | unmatchedC
  | spuriousC
deriving DecidableEq, Repr

/-- Embedding of the `InputPin` constructor (`InputPin.cpp:23-32`): the
initial raw reading `r0` (compared against `m_MatchStatus`) is latched, the
change timestamp is set to the current `millis()` value `t0`, the current
matched flag mirrors the initial reading, and all counters start at zero. -/
def InputPin.construct (r0 : Bool) (t0 : Nat) : PinState :=
  ⟨r0, t0 % 4294967296, r0, 0, 0, 0, 0, 0, 0⟩

/-- Embedding of `InputPin::ProcessISR` (`InputPin.cpp:42-102`) for a detector
with debounce interval `debouncems` and maximum matched duration
`maxMatchedTimems`, processing the raw reading `newReading` at time `ulNow`.
Returns the updated state and the classification of this invocation.  (The
C++ sets `m_CurrentMatchedState = false` once before the max-duration check;
here the assignment is written in each of the two branches, same result.) -/
def InputPin.ProcessISR (debouncems maxMatchedTimems : Nat) (st : PinState) (newReading : Bool) (ulNow : Nat) : PinState × Classified :=
  let st0 := { st with isrCalledCount := st.isrCalledCount + 1 }
  if newReading ≠ st.lastPinRead then
    let elapsed := u32sub ulNow st.lastChangedTime
    let res :=
      if newReading then
        if debouncems ≤ elapsed then
          ({ st0 with matchedCount := st0.matchedCount + 1, currentMatchedState := true },
            Classified.matchedC)
        else
          ({ st0 with spuriousCount := st0.spuriousCount + 1 }, Classified.spuriousC)
      else
        if debouncems ≤ elapsed then
          if maxMatchedTimems = 0 ∨ elapsed < maxMatchedTimems then
            ({ st0 with currentMatchedState := false, unmatchedCount := st0.unmatchedCount + 1, matchedDuration := elapsed }, Classified.unmatchedC)
          else
            ({ st0 with currentMatchedState := false, spuriousCount := st0.spuriousCount + 1 }, Classified.spuriousC)
        else
          ({ st0 with spuriousCount := st0.spuriousCount + 1 }, Classified.spuriousC)
    ({ res.1 with lastChangedTime := ulNow % 4294967296, lastPinRead := newReading }, res.2)
  else
    ({ st0 with discardedUnchangedCount := st0.discardedUnchangedCount + 1 },
      Classified.discardedC)

/-- Runs a sequence of raw-level transition notifications, each a pair of the
raw reading and its `millis()` timestamp, through `ProcessISR`. -/
def InputPin.run (debouncems maxMatchedTimems : Nat) (st : PinState) (evs : List (Bool × Nat)) : PinState :=
  evs.foldl (fun s e => (InputPin.ProcessISR debouncems maxMatchedTimems s e.1 e.2).1) st

/-- Classification counters of a detector state, in the order
(discardedUnchanged, matched, unmatched, spurious). -/
def PinState.classCounters (s : PinState) : Nat × Nat × Nat × Nat :=
  (s.discardedUnchangedCount, s.matchedCount, s.unmatchedCount, s.spuriousCount)

/-- Bumps the counter quadruple selected by a classification. -/
def Classified.bump : Classified → Nat × Nat × Nat × Nat → Nat × Nat × Nat × Nat
  | Classified.discardedC, (a, b, c, d) => (a + 1, b, c, d)
  | Classified.matchedC, (a, b, c, d) => (a, b + 1, c, d)
  | Classified.unmatchedC, (a, b, c, d) => (a, b, c + 1, d)
  | Classified.spuriousC, (a, b, c, d) => (a, b, c, d + 1)

/-- Case analysis of one `ProcessISR` invocation: the invoked counter rises by
one, exactly the counter named by the returned classification rises by one,
a matched classification happens only on a false-to-true raw transition, an
unmatched classification only on a true-to-false raw transition, and a
discarded classification leaves the latched reading unchanged. -/
theorem InputPin.ProcessISR_cases (d m : Nat) (st : PinState) (r : Bool) (ulNow : Nat) :
    (InputPin.ProcessISR d m st r ulNow).1.isrCalledCount = st.isrCalledCount + 1
  ∧ (InputPin.ProcessISR d m st r ulNow).1.classCounters
      = (InputPin.ProcessISR d m st r ulNow).2.bump st.classCounters
  ∧ ((InputPin.ProcessISR d m st r ulNow).2 = Classified.discardedC →
      (InputPin.ProcessISR d m st r ulNow).1.lastPinRead = st.lastPinRead)
  ∧ ((InputPin.ProcessISR d m st r ulNow).2 = Classified.matchedC →
      st.lastPinRead = false ∧ (InputPin.ProcessISR d m st r ulNow).1.lastPinRead = true)
  ∧ ((InputPin.ProcessISR d m st r ulNow).2 = Classified.unmatchedC →
      st.lastPinRead = true ∧ (InputPin.ProcessISR d m st r ulNow).1.lastPinRead = false) := by
  cases hr : st.lastPinRead <;> cases r <;>
    by_cases h2 : d ≤ u32sub ulNow st.lastChangedTime <;>
    by_cases h3 : m = 0 ∨ u32sub ulNow st.lastChangedTime < m <;>
    simp [InputPin.ProcessISR, hr, h2, h3, PinState.classCounters, Classified.bump]

/-- Embedding of `InputPin::IsMatched` (`InputPin.cpp:104-107`). -/
def InputPin.IsMatched (s : PinState) : Bool :=
  s.currentMatchedState

/-- Unfolding of `run` over one notification. -/
theorem InputPin.run_cons (d m : Nat) (st : PinState) (e : Bool × Nat) (rest : List (Bool × Nat)) :
    InputPin.run d m st (e :: rest)
      = InputPin.run d m (InputPin.ProcessISR d m st e.1 e.2).1 rest :=
  rfl

/-- Every invocation bumps the classification sum by at most one and the
invoked counter by exactly one. -/
theorem InputPin.ProcessISR_sum (d m : Nat) (st : PinState) (r : Bool) (ulNow : Nat) :
    (InputPin.ProcessISR d m st r ulNow).1.matchedCount
        + (InputPin.ProcessISR d m st r ulNow).1.unmatchedCount
        + (InputPin.ProcessISR d m st r ulNow).1.spuriousCount
      ≤ st.matchedCount + st.unmatchedCount + st.spuriousCount + 1
  ∧ (InputPin.ProcessISR d m st r ulNow).1.isrCalledCount = st.isrCalledCount + 1 := by
  obtain ⟨h1, h2, -, -, -⟩ := InputPin.ProcessISR_cases d m st r ulNow
  refine ⟨?_, h1⟩
  cases hc : (InputPin.ProcessISR d m st r ulNow).2 <;> rw [hc] at h2 <;>
    simp [PinState.classCounters, Classified.bump, Prod.ext_iff] at h2 <;> omega

/-- Classification sum stays below the invoked count along any run. -/
theorem InputPin.run_sum_le (d m : Nat) (evs : List (Bool × Nat)) :
    ∀ st : PinState,
      st.matchedCount + st.unmatchedCount + st.spuriousCount ≤ st.isrCalledCount →
      (InputPin.run d m st evs).matchedCount + (InputPin.run d m st evs).unmatchedCount
          + (InputPin.run d m st evs).spuriousCount
        ≤ (InputPin.run d m st evs).isrCalledCount := by
  induction evs with
  | nil => exact fun st h => h
  | cons e rest ih =>
      intro st h
      have hstep := InputPin.ProcessISR_sum d m st e.1 e.2
      rw [InputPin.run_cons]
      exact ih _ (by omega)

/-- C9: on every run from construction, matched + unmatched + spurious never
exceeds the invoked count, and every single invocation classifies the
transition exactly once: the invoked counter rises by one and exactly the one
counter selected by the returned classification (discardedUnchanged, matched,
unmatched or spurious) rises by one. -/
theorem InputPin.classified_once_sum_le (d m : Nat) (st : PinState) (r : Bool) (ulNow : Nat) (r0 : Bool) (t0 : Nat) (evs : List (Bool × Nat)) :
    (InputPin.run d m (InputPin.construct r0 t0) evs).matchedCount
        + (InputPin.run d m (InputPin.construct r0 t0) evs).unmatchedCount
        + (InputPin.run d m (InputPin.construct r0 t0) evs).spuriousCount
      ≤ (InputPin.run d m (InputPin.construct r0 t0) evs).isrCalledCount
  ∧ (InputPin.ProcessISR d m st r ulNow).1.isrCalledCount = st.isrCalledCount + 1
  ∧ (InputPin.ProcessISR d m st r ulNow).1.classCounters
      = (InputPin.ProcessISR d m st r ulNow).2.bump st.classCounters := by
  obtain ⟨h1, h2, -, -, -⟩ := InputPin.ProcessISR_cases d m st r ulNow
  exact ⟨InputPin.run_sum_le d m evs (InputPin.construct r0 t0) (by simp [InputPin.construct]),
    h1, h2⟩

/-- Inductive bound on the matched and unmatched counters: writing `b` for
`Bool.toNat`, any state satisfying both
`matched ≤ unmatched + spurious + b lastPinRead` and
`unmatched + b lastPinRead ≤ matched + spurious + b r0`
still satisfies them after any run. -/
theorem InputPin.run_bounds (d m : Nat) (r0 : Bool) (evs : List (Bool × Nat)) :
    ∀ st : PinState,
      st.matchedCount ≤ st.unmatchedCount + st.spuriousCount + st.lastPinRead.toNat →
      st.unmatchedCount + st.lastPinRead.toNat ≤ st.matchedCount + st.spuriousCount + r0.toNat →
      (InputPin.run d m st evs).matchedCount
          ≤ (InputPin.run d m st evs).unmatchedCount + (InputPin.run d m st evs).spuriousCount
            + (InputPin.run d m st evs).lastPinRead.toNat
      ∧ (InputPin.run d m st evs).unmatchedCount + (InputPin.run d m st evs).lastPinRead.toNat
          ≤ (InputPin.run d m st evs).matchedCount + (InputPin.run d m st evs).spuriousCount
            + r0.toNat := by
  induction evs with
  | nil => exact fun st h1 h2 => ⟨h1, h2⟩
  | cons e rest ih =>
      intro st h1 h2
      obtain ⟨-, hquad, hdisc, hmatch, hunmatch⟩ := InputPin.ProcessISR_cases d m st e.1 e.2
      rw [InputPin.run_cons]
      refine ih _ ?_ ?_ <;>
      · cases hc : (InputPin.ProcessISR d m st e.1 e.2).2 <;> rw [hc] at hquad <;>
          simp only [hc, forall_const, reduceCtorEq, false_implies] at hdisc hmatch hunmatch <;>
          simp only [PinState.classCounters, Classified.bump, Prod.ext_iff] at hquad
        · rw [hdisc] at *; omega
        · obtain ⟨ho, hn⟩ := hmatch
          rw [ho] at h1 h2; rw [hn]; simp [Bool.toNat] at *; omega
        · obtain ⟨ho, hn⟩ := hunmatch
          rw [ho] at h1 h2; rw [hn]; simp [Bool.toNat] at *; omega
        · cases hn : (InputPin.ProcessISR d m st e.1 e.2).1.lastPinRead <;>
            cases ho : st.lastPinRead <;> rw [ho] at h1 h2 <;>
            simp [Bool.toNat] at * <;> omega

/-- C5 counterexample: with the boundary-sensor configuration (debounce 50 ms,
max matched duration 1000 ms, initial raw reading unmatched at time 0), a
debounce-accepted match at 100 ms, a too-quick — hence spurious — unmatch at
110 ms, and a second debounce-accepted match at 200 ms leave the matched
counter at 2 with the unmatched counter at 0, so matched − unmatched is
outside {0, 1}: the detector records a second matched event with no
intervening unmatched event. -/
theorem InputPin.matched_twice_counterexample :
    (InputPin.run 50 1000 (InputPin.construct false 0) [(true, 100), (false, 110), (true, 200)]).matchedCount = 2
  ∧ (InputPin.run 50 1000 (InputPin.construct false 0) [(true, 100), (false, 110), (true, 200)]).unmatchedCount = 0
  ∧ ¬ ((InputPin.run 50 1000 (InputPin.construct false 0) [(true, 100), (false, 110), (true, 200)]).matchedCount
          - (InputPin.run 50 1000 (InputPin.construct false 0) [(true, 100), (false, 110), (true, 200)]).unmatchedCount = 0
      ∨ (InputPin.run 50 1000 (InputPin.construct false 0) [(true, 100), (false, 110), (true, 200)]).matchedCount
          - (InputPin.run 50 1000 (InputPin.construct false 0) [(true, 100), (false, 110), (true, 200)]).unmatchedCount = 1) := by
  refine ⟨rfl, rfl, ?_⟩
  decide

/-- C5 amended: matched − unmatched can leave {0, 1} only through spurious
classifications or a matched raw reading at construction.  For every sequence
of notifications, `matched ≤ unmatched + spurious + 1` and
`unmatched ≤ matched + spurious + (1 if the initial raw reading matched,
else 0)`; consequently, when no transition was classified spurious and the
initial raw reading was unmatched, matched − unmatched stays in {0, 1}. -/
theorem InputPin.matched_unmatched_bounds (d m : Nat) (r0 : Bool) (t0 : Nat) (evs : List (Bool × Nat)) :
    (InputPin.run d m (InputPin.construct r0 t0) evs).matchedCount
      ≤ (InputPin.run d m (InputPin.construct r0 t0) evs).unmatchedCount
        + (InputPin.run d m (InputPin.construct r0 t0) evs).spuriousCount + 1
  ∧ (InputPin.run d m (InputPin.construct r0 t0) evs).unmatchedCount
      ≤ (InputPin.run d m (InputPin.construct r0 t0) evs).matchedCount
        + (InputPin.run d m (InputPin.construct r0 t0) evs).spuriousCount + r0.toNat
  ∧ ((InputPin.run d m (InputPin.construct r0 t0) evs).spuriousCount = 0 → r0 = false →
        (InputPin.run d m (InputPin.construct r0 t0) evs).matchedCount
            = (InputPin.run d m (InputPin.construct r0 t0) evs).unmatchedCount
      ∨ (InputPin.run d m (InputPin.construct r0 t0) evs).matchedCount
            = (InputPin.run d m (InputPin.construct r0 t0) evs).unmatchedCount + 1) := by
  have hb := InputPin.run_bounds d m r0 evs (InputPin.construct r0 t0)
    (by simp [InputPin.construct]) (by simp [InputPin.construct])
  obtain ⟨hb1, hb2⟩ := hb
  cases hfin : (InputPin.run d m (InputPin.construct r0 t0) evs).lastPinRead <;>
    rw [hfin] at hb1 hb2 <;> cases r0 <;> simp [Bool.toNat] at * <;> omega

/-- C5 witness: a concrete run discharging the hypotheses of the conditional
conjunct — one debounce-accepted match from an initially-unmatched detector
with no spurious classification gives matched = unmatched + 1. -/
theorem InputPin.matched_unmatched_bounds_witness :
    (InputPin.run 50 1000 (InputPin.construct false 0) [(true, 100)]).spuriousCount = 0
  ∧ ((InputPin.run 50 1000 (InputPin.construct false 0) [(true, 100)]).matchedCount
        = (InputPin.run 50 1000 (InputPin.construct false 0) [(true, 100)]).unmatchedCount
    ∨ (InputPin.run 50 1000 (InputPin.construct false 0) [(true, 100)]).matchedCount
        = (InputPin.run 50 1000 (InputPin.construct false 0) [(true, 100)]).unmatchedCount + 1) :=
  ⟨by decide, (InputPin.matched_unmatched_bounds 50 1000 false 0 [(true, 100)]).2.2 (by decide) rfl⟩

/-- C6: with a nonzero maximum matched duration, a transition leaving the
matched state after at least that maximum is classified spurious, never
unmatched: the spurious counter rises by one, the unmatched counter and the
recorded last matched duration are untouched, and since only an `unmatchedC`
classification fires the `UnmatchAction()` hook, the hook is not invoked. -/
theorem InputPin.overlong_matched_is_spurious (d m : Nat) (st : PinState) (ulNow : Nat)
    (hm : m ≠ 0) (hread : st.lastPinRead = true)
    (hdur : m ≤ u32sub ulNow st.lastChangedTime) :
    (InputPin.ProcessISR d m st false ulNow).2 = Classified.spuriousC
  ∧ (InputPin.ProcessISR d m st false ulNow).2 ≠ Classified.unmatchedC
  ∧ (InputPin.ProcessISR d m st false ulNow).1.spuriousCount = st.spuriousCount + 1
  ∧ (InputPin.ProcessISR d m st false ulNow).1.unmatchedCount = st.unmatchedCount
  ∧ (InputPin.ProcessISR d m st false ulNow).1.matchedDuration = st.matchedDuration := by
  have hnot : ¬ (m = 0 ∨ u32sub ulNow st.lastChangedTime < m) := by omega
  by_cases hdeb : d ≤ u32sub ulNow st.lastChangedTime <;>
    simp [InputPin.ProcessISR, hread, hdeb, hnot]

/-- C6 witness: a detector constructed in the matched raw state at time 0,
with debounce 50 ms and maximum matched duration 1000 ms, receiving the
unmatching reading at 1500 ms. -/
theorem InputPin.overlong_matched_is_spurious_witness :
    (1000 : Nat) ≠ 0
  ∧ (InputPin.construct true 0).lastPinRead = true
  ∧ 1000 ≤ u32sub 1500 (InputPin.construct true 0).lastChangedTime
  ∧ (InputPin.ProcessISR 50 1000 (InputPin.construct true 0) false 1500).2 = Classified.spuriousC
  ∧ (InputPin.ProcessISR 50 1000 (InputPin.construct true 0) false 1500).1.unmatchedCount
      = (InputPin.construct true 0).unmatchedCount :=
  ⟨by decide, rfl, by decide,
    (InputPin.overlong_matched_is_spurious 50 1000 (InputPin.construct true 0) 1500
      (by decide) rfl (by decide)).1,
    (InputPin.overlong_matched_is_spurious 50 1000 (InputPin.construct true 0) 1500
      (by decide) rfl (by decide)).2.2.2.1⟩

/-- C10: in the over-long case — a transition leaving the matched state with
elapsed time at least the debounce interval and at least the nonzero maximum
matched duration — the current-matched flag is still cleared, so `IsMatched`
reports unmatched afterwards even though the transition was classified
spurious and the unmatched counter did not move. -/
theorem InputPin.overlong_clears_matched_flag (d m : Nat) (st : PinState) (ulNow : Nat)
    (hm : m ≠ 0) (hread : st.lastPinRead = true)
    (hdeb : d ≤ u32sub ulNow st.lastChangedTime)
    (hdur : m ≤ u32sub ulNow st.lastChangedTime) :
    InputPin.IsMatched (InputPin.ProcessISR d m st false ulNow).1 = false
  ∧ (InputPin.ProcessISR d m st false ulNow).2 = Classified.spuriousC
  ∧ (InputPin.ProcessISR d m st false ulNow).1.unmatchedCount = st.unmatchedCount := by
  have hnot : ¬ (m = 0 ∨ u32sub ulNow st.lastChangedTime < m) := by omega
  simp [InputPin.ProcessISR, InputPin.IsMatched, hread, hdeb, hnot]

/-- C10 witness: the same over-long exit evaluated on a concrete detector
state whose current-matched flag starts `true`. -/
theorem InputPin.overlong_clears_matched_flag_witness :
    (1000 : Nat) ≠ 0
  ∧ (InputPin.construct true 3).lastPinRead = true
  ∧ 50 ≤ u32sub 1503 (InputPin.construct true 3).lastChangedTime
  ∧ 1000 ≤ u32sub 1503 (InputPin.construct true 3).lastChangedTime
  ∧ InputPin.IsMatched (InputPin.construct true 3) = true
  ∧ InputPin.IsMatched (InputPin.ProcessISR 50 1000 (InputPin.construct true 3) false 1503).1 = false :=
  ⟨by decide, rfl, by decide, by decide, rfl,
    (InputPin.overlong_clears_matched_flag 50 1000 (InputPin.construct true 3) 1503
      (by decide) rfl (by decide) (by decide)).1⟩

/-! ## Peer registry (`FixedIPList.h`, `FixedIPList.cpp`) -/

/-- Take of a list with one element replaced, split at the replacement. -/
theorem listTakeSetSucc {α : Type} (l : List α) (n : Nat) (a : α) (h : n < l.length) :
    (l.set n a).take (n + 1) = l.take n ++ [a] := by
  induction l generalizing n with
  | nil => simp at h
  | cons x xs ih =>
      cases n with
      | zero => simp
      | succ k =>
          simp only [List.set_cons_succ, List.take_succ_cons, ih k (by simpa using h),
            List.cons_append]

/-- Replacing the element just past a list replaces the appended singleton. -/
theorem listSetAppendLength {α : Type} (xs : List α) (a b : α) :
    (xs ++ [b]).set xs.length a = xs ++ [a] := by
  induction xs with
  | nil => simp
  | cons x t ih => simp [ih]

/-- State of a `FixedIPList` (`FixedIPList.h:17-20`): `entries` models the
heap array `m_pIPList` of length `m_maxEntries`; `IPAddress` values are
embedded as their `uint32_t` value (`Nat`), with `EmptyAddress = IPAddress(0UL)`
embedded as `0`. -/
structure FixedIPList : Type where
  maxEntries : Nat
  entries : List Nat
  nextEntry : Nat
deriving DecidableEq, Repr

/-- Embedding of the file-scope `EmptyAddress = IPAddress ( 0UL )`. -/
def EmptyAddress : Nat := 0

/-- Embedding of the `FixedIPList` constructor (`FixedIPList.cpp:5-13`):
every slot of the array starts as `EmptyAddress` and `m_nextEntry` is 0. -/
def FixedIPList.construct (maxEntries : Nat) : FixedIPList :=
  ⟨maxEntries, List.replicate maxEntries EmptyAddress, 0⟩

/-- Embedding of `FixedIPList::IsPresent` (`FixedIPList.cpp:56-68`): scans all
`m_maxEntries` slots of the array for the address. -/
def FixedIPList.IsPresent (l : FixedIPList) (addr : Nat) : Bool :=
  l.entries.contains addr

/-- Embedding of `FixedIPList::Add` (`FixedIPList.cpp:15-34`): a present
address is ignored; on a full list every slot is shifted down one place, the
freed last slot is cleared to `EmptyAddress` and `m_nextEntry` is pulled back
to `m_maxEntries - 1`; then the addition is stored at `m_nextEntry`, which is
post-incremented. -/
def FixedIPList.Add (l : FixedIPList) (addition : Nat) : FixedIPList :=
  if l.IsPresent addition then l
  else if l.maxEntries ≤ l.nextEntry then
    { l with entries := (l.entries.drop 1 ++ [EmptyAddress]).set (l.maxEntries - 1) addition, nextEntry := (l.maxEntries - 1) + 1 }
  else
    { l with entries := l.entries.set l.nextEntry addition, nextEntry := l.nextEntry + 1 }

/-- Occupied portion of the registry: the slots below `m_nextEntry`, i.e. the
entries `Count()`/`GetNext` expose. -/
def FixedIPList.occupied (l : FixedIPList) : List Nat :=
  l.entries.take l.nextEntry

/-- Feeds a sequence of addresses to `Add`. -/
def FixedIPList.applyAdds (l : FixedIPList) (adds : List Nat) : FixedIPList :=
  adds.foldl FixedIPList.Add l

/-- Structural invariant of a `FixedIPList`: the array keeps its allocated
length, `m_nextEntry` stays in range, the capacity is positive and the
occupied slots are pairwise distinct. -/
def FixedIPList.Inv (l : FixedIPList) : Prop :=
  l.entries.length = l.maxEntries ∧ l.nextEntry ≤ l.maxEntries ∧ 1 ≤ l.maxEntries
    ∧ l.occupied.Nodup

/-- One `Add` preserves the invariant and either leaves the occupied entries
unchanged (present address), appends the new address, or drops the oldest
entry and appends the new address. -/
theorem FixedIPList.Add_step (l : FixedIPList) (a : Nat) (h : l.Inv) :
    (l.Add a).Inv
  ∧ (l.Add a).maxEntries = l.maxEntries
  ∧ ((l.Add a).occupied = l.occupied ∨ (l.Add a).occupied = l.occupied ++ [a]
      ∨ (l.Add a).occupied = l.occupied.drop 1 ++ [a]) := by
  obtain ⟨hlen, hle, hpos, hnd⟩ := h
  by_cases hp : l.IsPresent a
  · rw [FixedIPList.Add, if_pos hp]
    exact ⟨⟨hlen, hle, hpos, hnd⟩, rfl, Or.inl rfl⟩
  · have hmem : a ∉ l.entries := by
      simpa [FixedIPList.IsPresent] using hp
    by_cases hfull : l.maxEntries ≤ l.nextEntry
    · have hne : l.nextEntry = l.maxEntries := Nat.le_antisymm hle hfull
      have hdlen : (l.entries.drop 1).length = l.maxEntries - 1 := by
        simp [hlen]
      have hset : (l.entries.drop 1 ++ [EmptyAddress]).set (l.maxEntries - 1) a
          = l.entries.drop 1 ++ [a] := by
        rw [← hdlen]
        exact listSetAppendLength (l.entries.drop 1) a EmptyAddress
      have hocc : l.occupied = l.entries := by
        rw [FixedIPList.occupied, hne, ← hlen, List.take_length]
      have hlen2 : (l.entries.drop 1 ++ [a]).length = l.maxEntries := by
        simp [hdlen]
        omega
      have hocc2 : (l.Add a).occupied = l.entries.drop 1 ++ [a] := by
        rw [FixedIPList.Add, if_neg hp, if_pos hfull, FixedIPList.occupied]
        simp only [hset]
        have : l.maxEntries - 1 + 1 = l.maxEntries := by omega
        rw [this, ← hlen2, List.take_length]
      have hnd2 : (l.entries.drop 1 ++ [a]).Nodup := by
        rw [List.nodup_append]
        refine ⟨(List.drop_sublist 1 l.entries).nodup (hocc ▸ hnd), List.nodup_singleton a, ?_⟩
        intro x hx hx2
        simp at hx2
        exact hmem (hx2 ▸ List.drop_subset 1 l.entries hx)
      have hmax : (l.Add a).maxEntries = l.maxEntries := by
        rw [FixedIPList.Add, if_neg hp, if_pos hfull]
      refine ⟨⟨?_, ?_, ?_, ?_⟩, hmax, Or.inr (Or.inr ?_)⟩
      · rw [hmax, FixedIPList.Add, if_neg hp, if_pos hfull]
        simpa using hlen2
      · rw [hmax, FixedIPList.Add, if_neg hp, if_pos hfull]
        simp
        omega
      · rw [hmax]
        exact hpos
      · rw [hocc2]
        exact hnd2
      · rw [hocc2, hocc]
    · have hlt : l.nextEntry < l.entries.length := by omega
      have hocc2 : (l.Add a).occupied = l.occupied ++ [a] := by
        rw [FixedIPList.Add, if_neg hp, if_neg hfull, FixedIPList.occupied, FixedIPList.occupied]
        exact listTakeSetSucc l.entries l.nextEntry a hlt
      have hmax : (l.Add a).maxEntries = l.maxEntries := by
        rw [FixedIPList.Add, if_neg hp, if_neg hfull]
      refine ⟨⟨?_, ?_, ?_, ?_⟩, hmax, Or.inr (Or.inl ?_)⟩
      · rw [hmax, FixedIPList.Add, if_neg hp, if_neg hfull]
        simpa using hlen
      · rw [hmax, FixedIPList.Add, if_neg hp, if_neg hfull]
        simp
        omega
      · rw [hmax]
        exact hpos
      · rw [hocc2, List.nodup_append]
        refine ⟨hnd, List.nodup_singleton a, ?_⟩
        intro x hx hx2
        simp at hx2
        exact hmem (hx2 ▸ List.take_subset l.nextEntry l.entries hx)
      · exact hocc2

/-- Unfolding of `applyAdds` over one addition. -/
theorem FixedIPList.applyAdds_cons (l : FixedIPList) (x : Nat) (xs : List Nat) :
    l.applyAdds (x :: xs) = (l.Add x).applyAdds xs :=
  rfl

/-- The invariant holds along any sequence of additions. -/
theorem FixedIPList.applyAdds_Inv (adds : List Nat) :
    ∀ l : FixedIPList, l.Inv → (l.applyAdds adds).Inv := by
  induction adds with
  | nil => exact fun l h => h
  | cons x xs ih =>
      intro l h
      rw [FixedIPList.applyAdds_cons]
      exact ih _ (FixedIPList.Add_step l x h).1

/-- C8: on a capacity-4 registry, (i) after any sequence of `Add` calls the
occupied entries are pairwise distinct; (ii) each further `Add` either leaves
the occupied entries unchanged, appends the new address at the end, or drops
the oldest (earliest-inserted, index-0) entry and appends the new address at
the end, so the insertion order of surviving entries is preserved; and (iii)
adding five distinct non-empty addresses to a fresh registry evicts exactly
the first and keeps the rest in order with the fifth last. -/
theorem FixedIPList.Add_registry (adds pre : List Nat) (a a1 a2 a3 a4 a5 : Nat)
    (hnd : [a1, a2, a3, a4, a5].Nodup)
    (hz1 : a1 ≠ EmptyAddress) (hz2 : a2 ≠ EmptyAddress) (hz3 : a3 ≠ EmptyAddress)
    (hz4 : a4 ≠ EmptyAddress) (hz5 : a5 ≠ EmptyAddress) :
    ((FixedIPList.construct 4).applyAdds adds).occupied.Nodup
  ∧ ((((FixedIPList.construct 4).applyAdds pre).Add a).occupied
        = ((FixedIPList.construct 4).applyAdds pre).occupied
    ∨ (((FixedIPList.construct 4).applyAdds pre).Add a).occupied
        = ((FixedIPList.construct 4).applyAdds pre).occupied ++ [a]
    ∨ (((FixedIPList.construct 4).applyAdds pre).Add a).occupied
        = ((FixedIPList.construct 4).applyAdds pre).occupied.drop 1 ++ [a])
  ∧ ((FixedIPList.construct 4).applyAdds [a1, a2, a3, a4, a5]).occupied = [a2, a3, a4, a5] := by
  have hinv0 : (FixedIPList.construct 4).Inv := by
    refine ⟨by simp [FixedIPList.construct], by simp [FixedIPList.construct], by simp [FixedIPList.construct], ?_⟩
    simp [FixedIPList.occupied, FixedIPList.construct]
  have g1 : ¬ a1 = 0 := hz1
  have g2 : ¬ a2 = 0 := hz2
  have g3 : ¬ a3 = 0 := hz3
  have g4 : ¬ a4 = 0 := hz4
  have g5 : ¬ a5 = 0 := hz5
  simp only [List.nodup_cons, List.mem_cons, List.mem_singleton, List.not_mem_nil,
    or_false, not_or, List.nodup_nil, and_true] at hnd
  obtain ⟨⟨h12, h13, h14, h15⟩, ⟨h23, h24, h25⟩, ⟨h34, h35⟩, h45, -⟩ := hnd
  have hc : FixedIPList.construct 4 = ⟨4, [0, 0, 0, 0], 0⟩ := rfl
  have s1 : (FixedIPList.construct 4).Add a1 = ⟨4, [a1, 0, 0, 0], 1⟩ := by
    rw [hc]
    simp [FixedIPList.Add, FixedIPList.IsPresent, EmptyAddress, g1]
  have s2 : (⟨4, [a1, 0, 0, 0], 1⟩ : FixedIPList).Add a2 = ⟨4, [a1, a2, 0, 0], 2⟩ := by
    simp [FixedIPList.Add, FixedIPList.IsPresent, EmptyAddress, g2, Ne.symm h12]
  have s3 : (⟨4, [a1, a2, 0, 0], 2⟩ : FixedIPList).Add a3 = ⟨4, [a1, a2, a3, 0], 3⟩ := by
    simp [FixedIPList.Add, FixedIPList.IsPresent, EmptyAddress, g3, Ne.symm h13, Ne.symm h23]
  have s4 : (⟨4, [a1, a2, a3, 0], 3⟩ : FixedIPList).Add a4 = ⟨4, [a1, a2, a3, a4], 4⟩ := by
    simp [FixedIPList.Add, FixedIPList.IsPresent, EmptyAddress, g4, Ne.symm h14, Ne.symm h24,
      Ne.symm h34]
  have s5 : (⟨4, [a1, a2, a3, a4], 4⟩ : FixedIPList).Add a5 = ⟨4, [a2, a3, a4, a5], 4⟩ := by
    simp [FixedIPList.Add, FixedIPList.IsPresent, EmptyAddress, Ne.symm h15, Ne.symm h25,
      Ne.symm h35, Ne.symm h45]
  refine ⟨(FixedIPList.applyAdds_Inv adds (FixedIPList.construct 4) hinv0).2.2.2,
    (FixedIPList.Add_step ((FixedIPList.construct 4).applyAdds pre) a
      (FixedIPList.applyAdds_Inv pre (FixedIPList.construct 4) hinv0)).2.2, ?_⟩
  simp only [FixedIPList.applyAdds, List.foldl_cons, List.foldl_nil, s1, s2, s3, s4, s5]
  rfl

/-- C8 witness: adding the five distinct non-empty addresses 1..5 to a fresh
capacity-4 registry leaves occupied entries [2, 3, 4, 5]. -/
theorem FixedIPList.Add_registry_witness :
    ([1, 2, 3, 4, 5] : List Nat).Nodup
  ∧ (1 : Nat) ≠ EmptyAddress
  ∧ ((FixedIPList.construct 4).applyAdds [1, 2, 3, 4, 5]).occupied = [2, 3, 4, 5] :=
  ⟨by decide, by decide,
    (FixedIPList.Add_registry [] [] 0 1 2 3 4 5 (by decide) (by decide) (by decide)
      (by decide) (by decide) (by decide)).2.2⟩

/-! ## UDP protocol decode (`WiFiService.cpp`) -/

/-- Request kinds, from `enum ReqMsgType` in `WiFiService.h:75`. -/
inductive ReqMsgType : Type
  | TEMPDATA
  | DOORDATA
  | DOOROPEN
  | DOORCLOSE
  | DOORSTOP
  | LIGHTON
  | LIGHTOFF
deriving DecidableEq, Repr

/-- Version tag `cMsgVersion1 = "V001"` (`WiFiService.cpp:38`).  Datagram
texts are embedded as `List Char`. -/
def cMsgVersion1 : List Char := ['V', '0', '0', '1']

/-- Command tag `TempHumidityReqMsg = "M001"` (`WiFiService.cpp:39`). -/
def TempHumidityReqMsg : List Char := ['M', '0', '0', '1']

/-- Command tag `RestartReqMsg = "M002"` (`WiFiService.cpp:40`). -/
def RestartReqMsg : List Char := ['M', '0', '0', '2']

/-- Command tag `DoorStatusReqMsg = "M003"` (`WiFiService.cpp:41`). -/
def DoorStatusReqMsg : List Char := ['M', '0', '0', '3']

/-- Command tag `DoorOpenReqMsg = "M004"` (`WiFiService.cpp:42`). -/
def DoorOpenReqMsg : List Char := ['M', '0', '0', '4']

/-- Command tag `DoorCloseReqMsg = "M005"` (`WiFiService.cpp:43`). -/
def DoorCloseReqMsg : List Char := ['M', '0', '0', '5']

/-- Command tag `DoorStopReqMsg = "M006"` (`WiFiService.cpp:44`). -/
def DoorStopReqMsg : List Char := ['M', '0', '0', '6']

/-- Command tag `DoorLightOnReqMsg = "M007"` (`WiFiService.cpp:45`). -/
def DoorLightOnReqMsg : List Char := ['M', '0', '0', '7']

/-- Command tag `DoorLightOffReqMsg = "M008"` (`WiFiService.cpp:46`). -/
def DoorLightOffReqMsg : List Char := ['M', '0', '0', '8']

/-- The eight fixed command tags, in the order the decoder tries them. -/
def commandTags : List (List Char) :=
  [TempHumidityReqMsg, RestartReqMsg, DoorStatusReqMsg, DoorOpenReqMsg, DoorCloseReqMsg,
    DoorStopReqMsg, DoorLightOnReqMsg, DoorLightOffReqMsg]

/-- Payload offset used by every `substring` call in `ProcessUDPMessage`:
`sizeof(cMsgVersion1) + sizeof(PartSeparator) - 2 = 5 + 2 - 2 = 5` (array
sizes include the NUL terminators; `PartSeparator = ":"`). -/
def payloadStart : Nat := 5

/-- Observable outcome of one `UDPWiFiService::ProcessUDPMessage` call: the
`m_MsgHandlerCallback` invocations, whether `MN::Utils::ResetBoard` runs, and
the increments of `m_ulBadMgsVersion` and `m_ulBadRequests`. -/
structure UDPResult : Type where
  callbacks : List ReqMsgType
  resetBoard : Bool
  ulBadMgsVersionDelta : Nat
  ulBadRequestsDelta : Nat
deriving DecidableEq, Repr

/-- Embedding of `UDPWiFiService::ProcessUDPMessage` (`WiFiService.cpp:712-779`).
Arduino `String::startsWith` is `List.isPrefixOf` and `String::substring(5)`
is `List.drop 5`. -/
def ProcessUDPMessage (sRecvMessage : List Char) : UDPResult :=
  if cMsgVersion1.isPrefixOf sRecvMessage then
    if TempHumidityReqMsg.isPrefixOf (sRecvMessage.drop payloadStart) then
      ⟨[ReqMsgType.TEMPDATA], false, 0, 0⟩
    else if RestartReqMsg.isPrefixOf (sRecvMessage.drop payloadStart) then
      ⟨[], true, 0, 0⟩
    else if DoorStatusReqMsg.isPrefixOf (sRecvMessage.drop payloadStart) then
      ⟨[ReqMsgType.DOORDATA], false, 0, 0⟩
    else if DoorOpenReqMsg.isPrefixOf (sRecvMessage.drop payloadStart) then
      ⟨[ReqMsgType.DOOROPEN], false, 0, 0⟩
    else if DoorCloseReqMsg.isPrefixOf (sRecvMessage.drop payloadStart) then
      ⟨[ReqMsgType.DOORCLOSE], false, 0, 0⟩
    else if DoorStopReqMsg.isPrefixOf (sRecvMessage.drop payloadStart) then
      ⟨[ReqMsgType.DOORSTOP], false, 0, 0⟩
    else if DoorLightOnReqMsg.isPrefixOf (sRecvMessage.drop payloadStart) then
      ⟨[ReqMsgType.LIGHTON], false, 0, 0⟩
    else if DoorLightOffReqMsg.isPrefixOf (sRecvMessage.drop payloadStart) then
      ⟨[ReqMsgType.LIGHTOFF], false, 0, 0⟩
    else
      ⟨[], false, 0, 1⟩
  else
    ⟨[], false, 1, 0⟩

/-- C7: a datagram not starting with "V001" only increments the bad-version
counter (no callback); a datagram starting with "V001" whose payload after the
separator position matches none of the eight fixed command tags only
increments the bad-request counter (no callback); and "V001:M003" invokes the
request callback exactly once, with the door-status request kind. -/
theorem ProcessUDPMessage_decode (s : List Char) :
    (cMsgVersion1.isPrefixOf s = false → ProcessUDPMessage s = ⟨[], false, 1, 0⟩)
  ∧ (cMsgVersion1.isPrefixOf s = true →
      commandTags.all (fun t => !(t.isPrefixOf (s.drop payloadStart))) = true →
      ProcessUDPMessage s = ⟨[], false, 0, 1⟩)
  ∧ ProcessUDPMessage ['V', '0', '0', '1', ':', 'M', '0', '0', '3']
      = ⟨[ReqMsgType.DOORDATA], false, 0, 0⟩ := by
  refine ⟨fun h => by simp [ProcessUDPMessage, h], fun h halltags => ?_, by decide⟩
  simp only [commandTags, List.all_cons, List.all_nil, Bool.and_eq_true, Bool.not_eq_true',
    and_true] at halltags
  obtain ⟨n1, n2, n3, n4, n5, n6, n7, n8⟩ := halltags
  simp [ProcessUDPMessage, h, n1, n2, n3, n4, n5, n6, n7, n8]

/-- C7 witness: "V002:M003" is rejected as bad version; "V001:M999" is
rejected as bad request. -/
theorem ProcessUDPMessage_decode_witness :
    ProcessUDPMessage ['V', '0', '0', '2', ':', 'M', '0', '0', '3'] = ⟨[], false, 1, 0⟩
  ∧ ProcessUDPMessage ['V', '0', '0', '1', ':', 'M', '9', '9', '9'] = ⟨[], false, 0, 1⟩ :=
  ⟨(ProcessUDPMessage_decode ['V', '0', '0', '2', ':', 'M', '0', '0', '3']).1 (by decide),
    (ProcessUDPMessage_decode ['V', '0', '0', '1', ':', 'M', '9', '9', '9']).2.1 (by decide)
      (by decide)⟩
